import Mathlib

/-!
Shallow embedding of the wa-cloud repository's realtime core.

Client side (src/src/app/page.tsx, `Home` component): the socket event
listeners are modelled as pure state-transition functions on `HomeState`,
the record of the component's React state.  JavaScript objects used as
maps (`MessagesMap`, `UnreadCount`) are modelled as total functions with
the same defaults the code applies on lookup (`prev[chatId] || []`,
`(prev[chatId] || 0) + 1`).

Server side (src/server.js, plus the media-enabled variant in
src/unnamed/part_003): each `client.on(...)` / `socket.on(...)` handler is
modelled as a function from its inputs (the platform message, the outcome
of the awaited platform call) to the list of socket emissions it performs.
`socket.emit` is an emission directed at the requesting viewer,
`io.emit` a broadcast to all viewers; the distinction is recorded in
`EmitTarget`.
-/

namespace WaCloud

/-- Media attachment shape (page.tsx `interface Media`). -/
structure Media where
  mimetype : String
  data : String
  filename : Option String
  deriving DecidableEq, Repr

/-- Message shape exchanged between server and viewers (page.tsx
`interface Message`; the `type`/`hasMedia`/`location` presentation fields
are omitted, no claim depends on them). -/
structure Message where
  id : Option String
  body : String
  «from» : String
  «to» : String
  fromMe : Bool
  media : Option Media
  deriving DecidableEq, Repr

/-- Chat list entry (page.tsx `interface Chat`). -/
structure Chat where
  id : String
  name : Option String
  isGroup : Bool
  deriving DecidableEq, Repr

/-- The React state of the `Home` component (page.tsx lines 64-76).
`timeoutActive` models whether the 30-second bootstrap timer set at mount
(`loadingTimeoutRef`) is still pending (not yet fired, not cleared). -/
structure HomeState where
  qrCode : String
  isReady : Bool
  hasError : Bool
  loadingStage : String
  logs : List String
  chats : List Chat
  selectedChat : Option String
  messages : String → List Message
  unreadCounts : String → Nat
  timeoutActive : Bool

/-- `addLog` (page.tsx line 84): prepends to the log list.  The wall-clock
timestamp prefix is ambient state and omitted. -/
def addLog (s : HomeState) (log : String) : HomeState :=
  { s with logs := log :: s.logs }

/-- `markChatAsRead` (page.tsx lines 88-93): sets the chat's unread count
to 0, leaving other keys untouched (object spread). -/
def markChatAsRead (prev : String → Nat) (chatId : String) : String → Nat :=
  fun c => if c = chatId then 0 else prev c

/-- `incrementUnreadCount` (page.tsx lines 96-101):
`(prev[chatId] || 0) + 1`, other keys untouched. -/
def incrementUnreadCount (prev : String → Nat) (chatId : String) : String → Nat :=
  fun c => if c = chatId then prev chatId + 1 else prev c

/-- The owning chat id computed by the `message` listener
(page.tsx line 194): `newMessage.fromMe ? newMessage.to : newMessage.from`. -/
def counterpart (m : Message) : String :=
  if m.fromMe then m.«to» else m.«from»

/-- `socket.on('message')` (page.tsx lines 193-207): append the message to
the counterpart chat's sequence (`[...(prev[chatId] || []), newMessage]`),
then increment the unread count only when the message is not from me and
the chat is not the current selection
(`!newMessage.fromMe && selectedChatRef.current?.id !== chatId`). -/
def onMessage (s : HomeState) (m : Message) : HomeState :=
  let chatId := counterpart m
  let s1 : HomeState :=
    { s with messages := fun c => if c = chatId then s.messages c ++ [m] else s.messages c }
  if m.fromMe = false ∧ s.selectedChat ≠ some chatId then
    { s1 with unreadCounts := incrementUnreadCount s1.unreadCounts chatId }
  else
    s1

/-- `socket.on('message_sent')` (page.tsx lines 210-218): if no chat is
selected the event is dropped; otherwise the confirmed message, with
`fromMe` forced to `true`, is appended to the *selected* chat's sequence. -/
def onMessageSent (s : HomeState) (m : Message) : HomeState :=
  match s.selectedChat with
  | none => s
  | some chatId =>
    { s with messages :=
        fun c => if c = chatId then s.messages c ++ [{ m with fromMe := true }] else s.messages c }

/-- `socket.on('qr')` (page.tsx lines 134-142): store the QR payload,
clear ready/error, set the stage, clear the bootstrap timer. -/
def onQr (s : HomeState) (qr : String) : HomeState :=
  { s with qrCode := qr, isReady := false, hasError := false,
           loadingStage := "QR Code ready - Please scan", timeoutActive := false }

/-- `socket.on('authenticated')` (page.tsx lines 144-151). -/
def onAuthenticated (s : HomeState) : HomeState :=
  { s with isReady := true, hasError := false,
           loadingStage := "Authenticated - Loading chats...", timeoutActive := false }

/-- `socket.on('session_exists')` (page.tsx lines 153-168): only the
`true` branch clears the bootstrap timer. -/
def onSessionExists (s : HomeState) (b : Bool) : HomeState :=
  if b then
    addLog { s with isReady := true, hasError := false,
                    loadingStage := "Session restored - Loading chats...",
                    timeoutActive := false }
      "Session already exists, client ready!"
  else
    addLog { s with loadingStage := "Starting new session..." }
      "No active session yet, waiting for ready/authenticated..."

/-- `socket.on('ready')` (page.tsx lines 170-179). -/
def onReady (s : HomeState) : HomeState :=
  addLog { s with isReady := true, hasError := false,
                  loadingStage := "Client ready - Loading chats...", timeoutActive := false }
    "Client is ready!"

/-- `socket.on('connect')` (page.tsx lines 116-121): does not touch the
bootstrap timer. -/
def onConnect (s : HomeState) : HomeState :=
  addLog { s with loadingStage := "Checking existing session..." } "Socket connected!"

/-- `socket.on('disconnect')` (page.tsx lines 123-126). -/
def onDisconnect (s : HomeState) : HomeState :=
  addLog { s with loadingStage := "Connection lost - Reconnecting..." } "Socket disconnected!"

/-- `socket.on('connect_error')` (page.tsx lines 128-132): sets the error
flag and stage but does NOT clear the bootstrap timer. -/
def onConnectError (s : HomeState) (emsg : String) : HomeState :=
  { addLog s ("Connection error: " ++ emsg) with
      hasError := true, loadingStage := "Connection failed" }

/-- `socket.on('chats')` (page.tsx lines 183-186). -/
def onChats (s : HomeState) (chatList : List Chat) : HomeState :=
  addLog { s with chats := chatList }
    ("Chat list received: " ++ toString chatList.length ++ " chats")

/-- `socket.on('messages')` (page.tsx lines 188-190): wholesale replace of
one chat's history. -/
def onMessagesEvent (s : HomeState) (chatId : String) (ms : List Message) : HomeState :=
  { s with messages := fun c => if c = chatId then ms else s.messages c }

/-- The 30-second bootstrap timer callback (page.tsx lines 108-114): when
it fires (only possible while still pending) it checks
`!isReady && !qrCode` and, if so, flags the error state with the timeout
stage.  Firing consumes the timer either way. -/
def onTimerFire (s : HomeState) : HomeState :=
  if s.timeoutActive then
    if s.isReady = false ∧ s.qrCode = "" then
      addLog { s with hasError := true,
                      loadingStage := "Connection timeout - Check server logs",
                      timeoutActive := false }
        "Loading timeout detected - server may not be responding"
    else
      { s with timeoutActive := false }
  else
    s

/-- The socket events the `Home` component can receive, plus the internal
timer expiry. -/
inductive SocketEvent where
  | connect
  | disconnect
  | connectError (emsg : String)
  | qr (code : String)
  | authenticated
  | sessionExists (b : Bool)
  | ready
  | logEvent (l : String)
  | chatsEvent (cs : List Chat)
  | messagesEvent (chatId : String) (ms : List Message)
  | message (m : Message)
  | messageSent (m : Message)
  | ackUpdate (msgId : String) (chatId : String) (ack : Int)
  | timerFire
  deriving DecidableEq, Repr

/-- Dispatch of one event to the listener page.tsx registers for it.
`ackUpdate` has no listener in page.tsx (no `socket.on('message_ack_update')`),
so the event leaves the state unchanged. -/
def homeStep (s : HomeState) : SocketEvent → HomeState
  | .connect => onConnect s
  | .disconnect => onDisconnect s
  | .connectError emsg => onConnectError s emsg
  | .qr code => onQr s code
  | .authenticated => onAuthenticated s
  | .sessionExists b => onSessionExists s b
  | .ready => onReady s
  | .logEvent l => addLog s l
  | .chatsEvent cs => onChats s cs
  | .messagesEvent chatId ms => onMessagesEvent s chatId ms
  | .message m => onMessage s m
  | .messageSent m => onMessageSent s m
  | .ackUpdate _ _ _ => s
  | .timerFire => onTimerFire s

/-- Run a sequence of events. -/
def homeRun (s : HomeState) (evs : List SocketEvent) : HomeState :=
  evs.foldl homeStep s

/-- The component's initial state (page.tsx lines 64-76): the bootstrap
timer is set in the mount effect (line 108), so it starts pending. -/
def homeStart : HomeState :=
  { qrCode := "", isReady := false, hasError := false,
    loadingStage := "Initializing...", logs := [], chats := [],
    selectedChat := none, messages := fun _ => [], unreadCounts := fun _ => 0,
    timeoutActive := true }

/-- `MessagePanel.sendMessage` (page.tsx lines 411-433): with a selected
chat and a non-blank input it only logs and emits the `send-message`
command; the optimistic cache update is commented out in the source, so
the message cache is untouched at send time.  Returns the new state and
the emitted `{to, message}` payload, if any. -/
def clientSendSubmit (s : HomeState) (text : String) : HomeState × Option (String × String) :=
  match s.selectedChat with
  | some c =>
    if text.trim ≠ "" then
      (addLog s ("Sending message to " ++ c ++ "..."), some (c, text))
    else
      (s, none)
  | none => (s, none)

/-! ## Server side (src/server.js; media variant src/unnamed/part_003) -/

/-- The platform client's message object, restricted to the fields the
server handlers read (`msg.from`, `msg.to`, `msg.body`, `msg.id.id`,
`msg.fromMe`, `msg.ack`, `msg.hasMedia`). -/
structure PlatformMsg where
  «from» : String
  «to» : String
  body : String
  msgId : String
  fromMe : Bool
  ack : Int
  hasMedia : Bool
  deriving DecidableEq, Repr

/-- Result of `msg.downloadMedia()` on success. -/
structure MediaData where
  mimetype : String
  data : String
  filename : Option String
  deriving DecidableEq, Repr

/-- Who a server-side `emit` reaches: `socket.emit` goes only to the
requesting viewer's socket, `io.emit` to every connected viewer. -/
inductive EmitTarget where
  | requester
  | broadcast
  deriving DecidableEq, Repr

/-- One server emission: its audience and the event payload (events share
the client's `SocketEvent` shape). -/
structure Emit where
  target : EmitTarget
  event : SocketEvent
  deriving DecidableEq, Repr

/-- A registered push subscription (only its endpoint matters here). -/
structure Subscription where
  endpoint : String
  deriving DecidableEq, Repr

/-- The projection server.js applies before emitting a message to viewers
(`{from, to, body, id: msg.id.id, fromMe, ack}`); server.js attaches no
media. -/
def normalizeMsg (msg : PlatformMsg) : Message :=
  { id := some msg.msgId, body := msg.body, «from» := msg.«from»,
    «to» := msg.«to», fromMe := msg.fromMe, media := none }

/-- `client.on('message')` (server.js lines 45-63): for every
registered subscription, one push delivery is attempted; each attempt's
rejection is absorbed by its own `.catch` (modelled by `deliver` being a
total function into `Except`), after which the inbound message is
broadcast.  Returns the list of (subscription, delivery outcome) pairs
and the broadcast emission. -/
def serverOnMessage (subs : List Subscription)
    (deliver : Subscription → Except String Unit) (msg : PlatformMsg) :
    List (Subscription × Except String Unit) × Emit :=
  (subs.map (fun sub => (sub, deliver sub)),
   { target := .broadcast, event := .message (normalizeMsg msg) })

/-- `client.on('message_ack')` (server.js lines 66-69): a single broadcast
of `message_ack_update` with `chatId := msg.to`, nothing else. -/
def serverOnMessageAck (msg : PlatformMsg) (ack : Int) : List Emit :=
  [{ target := .broadcast, event := .ackUpdate msg.msgId msg.«to» ack }]

/-- `socket.on('send-message')` (server.js lines 83-91): `result` is the
outcome of the awaited `client.sendMessage`; on success the confirmation
is emitted as `message_sent` to the requesting socket only, on failure a
`log` line is emitted to the requesting socket only. -/
def serverOnSendMessage (result : Except String PlatformMsg) : List Emit :=
  match result with
  | .ok sentMsg => [{ target := .requester, event := .messageSent (normalizeMsg sentMsg) }]
  | .error e => [{ target := .requester, event := .logEvent ("Error sending message: " ++ e) }]

/-- JavaScript `mediaData.filename || null` (part_003 line 91): an empty
string is falsy, so it also collapses to null. -/
def orNull (o : Option String) : Option String :=
  match o with
  | some s => if s = "" then none else some s
  | none => none

/-- Inbound normalization of the media-enabled server variant
(src/unnamed/part_003 lines 81-107): `media` starts null; only when
`msg.hasMedia` is the download attempted, a failure leaving media null. -/
def normalizeMsgMedia (msg : PlatformMsg) (dl : Except String MediaData) : Message :=
  let media : Option Media :=
    if msg.hasMedia then
      match dl with
      | .ok md => some { mimetype := md.mimetype, data := md.data, filename := orNull md.filename }
      | .error _ => none
    else none
  { id := some msg.msgId, body := msg.body, «from» := msg.«from»,
    «to» := msg.«to», fromMe := msg.fromMe, media := media }

/-- `client.on('message')` of the media-enabled variant
(src/unnamed/part_003 lines 81-108): the message is always broadcast,
with media embedded exactly when the download succeeded. -/
def serverOnMessageMedia (msg : PlatformMsg) (dl : Except String MediaData) : Emit :=
  { target := .broadcast, event := .message (normalizeMsgMedia msg dl) }

/-! ## Sample values used by witnesses and counterexamples -/

/-- A concrete inbound message (not self-sent). -/
def msgIn : Message :=
  { id := some "m1", body := "hello", «from» := "628@c.us", «to» := "me@c.us",
    fromMe := false, media := none }

/-- A second inbound message carrying the same id as `msgIn`. -/
def msgDup : Message :=
  { msgIn with body := "hello again" }

/-- A concrete self-sent message. -/
def msgOut : Message :=
  { id := some "m2", body := "hi", «from» := "me@c.us", «to» := "628@c.us",
    fromMe := true, media := none }

/-- A concrete platform confirmation returned by `client.sendMessage`. -/
def sentPm : PlatformMsg :=
  { «from» := "me@c.us", «to» := "123@c.us", body := "hi", msgId := "s1",
    fromMe := true, ack := 0, hasMedia := false }

/-- A concrete inbound platform message reporting attached media. -/
def mediaPm : PlatformMsg :=
  { «from» := "628@c.us", «to» := "me@c.us", body := "photo", msgId := "m3",
    fromMe := false, ack := 1, hasMedia := true }

/-- A state in which chat `628@c.us` is the current selection. -/
def selState : HomeState :=
  { homeStart with selectedChat := some "628@c.us" }

/-! ## Facts about the message listener -/

/-- The `message` listener's effect on the message cache is an append to
the counterpart chat, whatever the unread branch does. -/
theorem onMessage_messages (s : HomeState) (m : Message) :
    (onMessage s m).messages
      = fun c => if c = counterpart m then s.messages c ++ [m] else s.messages c := by
  unfold onMessage
  dsimp only
  split <;> rfl

/-- The `message` listener's effect on the unread counters. -/
theorem onMessage_unread (s : HomeState) (m : Message) :
    (onMessage s m).unreadCounts
      = if m.fromMe = false ∧ s.selectedChat ≠ some (counterpart m) then
          incrementUnreadCount s.unreadCounts (counterpart m)
        else s.unreadCounts := by
  unfold onMessage
  dsimp only
  split <;> rfl

/-! ## Claim theorems -/

/-- Claim C1, counterexample: starting from the initial state, receiving
`msgIn` and then `msgDup` — which carries the same id — leaves the chat
with BOTH messages: the second is appended as a duplicate, not an
in-place update (an in-place update would leave a single entry). -/
theorem append_same_id_duplicates_counterexample :
    msgIn.id = msgDup.id ∧
    (homeRun homeStart [SocketEvent.message msgIn, SocketEvent.message msgDup]).messages "628@c.us"
      = [msgIn, msgDup] := by
  constructor
  · rfl
  · decide

/-- Claim C1, amended: every path that adds a message to the cache appends
unconditionally — the inbound `message` listener appends to the
counterpart chat and the `message_sent` listener appends (with `fromMe`
forced true) to the currently selected chat — creating the chat's
sequence if absent; a message whose id equals the last appended message's
id is appended as a duplicate rather than updating in place (shown by the
counterexample). -/
theorem append_always_appends (s : HomeState) (m : Message) (c : String)
    (hsel : s.selectedChat = some c) :
    (homeStep s (.message m)).messages (counterpart m)
      = s.messages (counterpart m) ++ [m] ∧
    (s.messages (counterpart m) = [] →
      (homeStep s (.message m)).messages (counterpart m) = [m]) ∧
    (homeStep s (.messageSent m)).messages c
      = s.messages c ++ [{ m with fromMe := true }] := by
  refine ⟨?_, ?_, ?_⟩
  · show (onMessage s m).messages _ = _
    rw [onMessage_messages]
    simp
  · intro habsent
    show (onMessage s m).messages _ = _
    rw [onMessage_messages]
    simp [habsent]
  · show (onMessageSent s m).messages c = _
    unfold onMessageSent
    rw [hsel]
    simp

/-- Witness for the amended C1 at a concrete state and message. -/
theorem append_always_appends_witness :
    selState.selectedChat = some "628@c.us" ∧
    (homeStep selState (.message msgIn)).messages (counterpart msgIn)
      = selState.messages (counterpart msgIn) ++ [msgIn] ∧
    (homeStep selState (.messageSent msgOut)).messages "628@c.us"
      = selState.messages "628@c.us" ++ [{ msgOut with fromMe := true }] := by
  have h := append_always_appends selState msgIn "628@c.us" rfl
  have h2 := append_always_appends selState msgOut "628@c.us" rfl
  exact ⟨rfl, h.1, h2.2.2⟩

/-- Claim C2: the inbound `message` listener stores the message under the
counterpart address — the sender when not self-sent, the recipient when
self-sent — and no other chat's sequence (in particular not a differing
current selection) is touched. -/
theorem inbound_owning_chat_is_counterpart (s : HomeState) (m : Message) (c : String)
    (hc : c ≠ counterpart m) :
    (homeStep s (.message m)).messages (counterpart m)
      = s.messages (counterpart m) ++ [m] ∧
    (m.fromMe = false → counterpart m = m.«from») ∧
    (m.fromMe = true → counterpart m = m.«to») ∧
    (homeStep s (.message m)).messages c = s.messages c := by
  refine ⟨?_, ?_, ?_, ?_⟩
  · show (onMessage s m).messages _ = _
    rw [onMessage_messages]
    simp
  · intro h
    simp [counterpart, h]
  · intro h
    simp [counterpart, h]
  · show (onMessage s m).messages c = _
    rw [onMessage_messages]
    simp [hc]

/-- Witness for C2: a state whose selection (`999@c.us`) differs from the
counterpart of `msgIn` (`628@c.us`) leaves the selected chat untouched. -/
theorem inbound_owning_chat_is_counterpart_witness :
    "999@c.us" ≠ counterpart msgIn ∧
    (homeStep { homeStart with selectedChat := some "999@c.us" } (.message msgIn)).messages
        (counterpart msgIn)
      = ({ homeStart with selectedChat := some "999@c.us" } : HomeState).messages
          (counterpart msgIn) ++ [msgIn] ∧
    (homeStep { homeStart with selectedChat := some "999@c.us" } (.message msgIn)).messages
        "999@c.us"
      = ({ homeStart with selectedChat := some "999@c.us" } : HomeState).messages "999@c.us" := by
  have h := inbound_owning_chat_is_counterpart
    { homeStart with selectedChat := some "999@c.us" } msgIn "999@c.us" (by decide)
  exact ⟨by decide, h.1, h.2.2.2⟩

/-- Claim C4: an inbound message never increments the unread counter of
the currently selected chat, and a self-sent message increments no
counter at all. -/
theorem unread_guard (s : HomeState) (m : Message) (c : String)
    (hsel : s.selectedChat = some c) :
    (homeStep s (.message m)).unreadCounts c = s.unreadCounts c ∧
    (m.fromMe = true → (homeStep s (.message m)).unreadCounts = s.unreadCounts) := by
  constructor
  · show (onMessage s m).unreadCounts c = _
    rw [onMessage_unread]
    split
    · rename_i hguard
      have hne : c ≠ counterpart m := by
        intro hcc
        exact hguard.2 (hcc ▸ hsel)
      simp [incrementUnreadCount, hne]
    · rfl
  · intro hfm
    show (onMessage s m).unreadCounts = _
    rw [onMessage_unread]
    simp [hfm]

/-- Witness for C4 at a concrete selected state, inbound and self-sent
message. -/
theorem unread_guard_witness :
    selState.selectedChat = some "628@c.us" ∧
    (homeStep selState (.message msgIn)).unreadCounts "628@c.us"
      = selState.unreadCounts "628@c.us" ∧
    msgOut.fromMe = true ∧
    (homeStep selState (.message msgOut)).unreadCounts = selState.unreadCounts := by
  have h := unread_guard selState msgIn "628@c.us" rfl
  have h2 := unread_guard selState msgOut "628@c.us" rfl
  exact ⟨rfl, h.1, rfl, h2.2 rfl⟩

/-- Claim C9: incrementing then clearing a chat's unread count always
yields 0 whatever the prior count, and neither operation changes any
other chat's count. -/
theorem inc_then_clear_zero (u : String → Nat) (c c2 : String) (h : c2 ≠ c) :
    markChatAsRead (incrementUnreadCount u c) c c = 0 ∧
    incrementUnreadCount u c c2 = u c2 ∧
    markChatAsRead u c c2 = u c2 := by
  refine ⟨?_, ?_, ?_⟩
  · simp [markChatAsRead]
  · simp [incrementUnreadCount, h]
  · simp [markChatAsRead, h]

/-- Witness for C9 with prior count 5 at chat `a`, observer chat `b`. -/
theorem inc_then_clear_zero_witness :
    ("b" : String) ≠ "a" ∧
    markChatAsRead (incrementUnreadCount (fun _ => 5) "a") "a" "a" = 0 ∧
    incrementUnreadCount (fun _ => 5) "a" "b" = 5 ∧
    markChatAsRead (fun _ => 5) "a" "b" = 5 := by
  have h := inc_then_clear_zero (fun _ => 5) "a" "b" (by decide)
  exact ⟨by decide, h.1, h.2.1, h.2.2⟩

/-- Claim C3, counterexample: a successful send is emitted with
`socket.emit`, i.e. to the requesting viewer only, not broadcast; and a
viewer with no selected chat drops the confirmation, so the cache for the
`to` chat (`123@c.us`) gains no entry at all. -/
theorem messageSent_not_broadcast_counterexample :
    (serverOnSendMessage (Except.ok sentPm)).map Emit.target = [EmitTarget.requester] ∧
    EmitTarget.requester ≠ EmitTarget.broadcast ∧
    homeStart.selectedChat = none ∧
    (homeStep homeStart (.messageSent (normalizeMsg sentPm))).messages "123@c.us" = [] := by
  refine ⟨rfl, by decide, rfl, rfl⟩

/-- Claim C3, amended: a successful outbound send emits exactly one
`message_sent` event carrying the sent body, directed to the requesting
viewer only; on receipt that viewer appends exactly one entry, with
`fromMe` forced true, to its *currently selected* chat's sequence (other
chats untouched) — and drops the event when no chat is selected. -/
theorem messageSent_directed_and_selection_cached
    (sent : PlatformMsg) (s : HomeState) (c c2 : String)
    (hsel : s.selectedChat = some c) (hc2 : c2 ≠ c) :
    serverOnSendMessage (Except.ok sent)
      = [{ target := .requester, event := .messageSent (normalizeMsg sent) }] ∧
    (normalizeMsg sent).body = sent.body ∧
    (homeStep s (.messageSent (normalizeMsg sent))).messages c
      = s.messages c ++ [{ normalizeMsg sent with fromMe := true }] ∧
    (homeStep s (.messageSent (normalizeMsg sent))).messages c2 = s.messages c2 ∧
    (∀ s2 : HomeState, s2.selectedChat = none →
      homeStep s2 (.messageSent (normalizeMsg sent)) = s2) := by
  refine ⟨rfl, rfl, ?_, ?_, ?_⟩
  · show (onMessageSent s _).messages c = _
    unfold onMessageSent
    rw [hsel]
    simp
  · show (onMessageSent s _).messages c2 = _
    unfold onMessageSent
    rw [hsel]
    simp [hc2]
  · intro s2 hnone
    show onMessageSent s2 _ = s2
    unfold onMessageSent
    rw [hnone]

/-- Witness for the amended C3 at the concrete send confirmation
`sentPm` and a viewer whose selection is `123@c.us`. -/
theorem messageSent_directed_and_selection_cached_witness :
    ({ homeStart with selectedChat := some "123@c.us" } : HomeState).selectedChat
      = some "123@c.us" ∧
    ("999@c.us" : String) ≠ "123@c.us" ∧
    serverOnSendMessage (Except.ok sentPm)
      = [{ target := .requester, event := .messageSent (normalizeMsg sentPm) }] ∧
    (homeStep { homeStart with selectedChat := some "123@c.us" }
        (.messageSent (normalizeMsg sentPm))).messages "123@c.us"
      = ({ homeStart with selectedChat := some "123@c.us" } : HomeState).messages "123@c.us"
          ++ [{ normalizeMsg sentPm with fromMe := true }] := by
  have h := messageSent_directed_and_selection_cached sentPm
    { homeStart with selectedChat := some "123@c.us" } "123@c.us" "999@c.us" rfl (by decide)
  exact ⟨rfl, by decide, h.1, h.2.2.1⟩

/-- Projecting the subscription back out of each (subscription, outcome)
pair recovers the registry. -/
theorem map_fst_pair (l : List Subscription) (f : Subscription → Except String Unit) :
    (l.map fun sub => (sub, f sub)).map Prod.fst = l := by
  induction l with
  | nil => rfl
  | cons a tl ih =>
    simp only [List.map_cons]
    rw [ih]

/-- Claim C5: on an inbound message, one push delivery is attempted for
every registered subscription; the set of attempts and the broadcast of
the message are the same whatever each delivery's outcome, because each
rejection is absorbed by its own catch. -/
theorem push_delivery_isolated
    (subs : List Subscription) (deliver deliver2 : Subscription → Except String Unit)
    (msg : PlatformMsg) :
    (serverOnMessage subs deliver msg).1.map Prod.fst = subs ∧
    (serverOnMessage subs deliver msg).1.length = subs.length ∧
    (serverOnMessage subs deliver msg).2 = (serverOnMessage subs deliver2 msg).2 ∧
    (serverOnMessage subs deliver msg).2
      = { target := .broadcast, event := .message (normalizeMsg msg) } := by
  refine ⟨?_, ?_, rfl, rfl⟩
  · exact map_fst_pair subs deliver
  · simp [serverOnMessage]

/-- Claim C6: a failed outbound send emits exactly one diagnostic `log`
event, directed to the requesting viewer only; neither the `log` event
nor the send submission itself touches any viewer's message cache or
unread counters. -/
theorem send_failure_directed_log_cache_unchanged
    (e : String) (s : HomeState) (l t : String) :
    serverOnSendMessage (Except.error e)
      = [{ target := .requester, event := .logEvent ("Error sending message: " ++ e) }] ∧
    (homeStep s (.logEvent l)).messages = s.messages ∧
    (homeStep s (.logEvent l)).unreadCounts = s.unreadCounts ∧
    (clientSendSubmit s t).1.messages = s.messages ∧
    (clientSendSubmit s t).1.unreadCounts = s.unreadCounts := by
  refine ⟨rfl, rfl, rfl, ?_, ?_⟩ <;>
  · unfold clientSendSubmit
    split
    · split <;> rfl
    · rfl

/-- Claim C8: in the media-enabled inbound handler, a message reporting
attached media is still broadcast when the media download fails — with
`media` null — and carries the downloaded media (mime type, payload, the
filename collapsed to null when empty) when the download succeeds. -/
theorem media_failure_degrades (msg : PlatformMsg) (md : MediaData) (e : String)
    (h : msg.hasMedia = true) :
    serverOnMessageMedia msg (Except.error e)
      = { target := .broadcast, event := .message (
          { id := some msg.msgId, body := msg.body, «from» := msg.«from»,
            «to» := msg.«to», fromMe := msg.fromMe, media := none } : Message) } ∧
    serverOnMessageMedia msg (Except.ok md)
      = { target := .broadcast, event := .message (
          { id := some msg.msgId, body := msg.body, «from» := msg.«from»,
            «to» := msg.«to», fromMe := msg.fromMe,
            media := some ({ mimetype := md.mimetype, data := md.data,
                             filename := orNull md.filename } : Media) } : Message) } := by
  constructor <;> simp [serverOnMessageMedia, normalizeMsgMedia, h]

/-- Witness for C8 at the concrete media-bearing message `mediaPm`. -/
theorem media_failure_degrades_witness :
    mediaPm.hasMedia = true ∧
    serverOnMessageMedia mediaPm (Except.error "net down")
      = { target := .broadcast, event := .message (
          { id := some mediaPm.msgId, body := mediaPm.body, «from» := mediaPm.«from»,
            «to» := mediaPm.«to», fromMe := mediaPm.fromMe, media := none } : Message) } ∧
    serverOnMessageMedia mediaPm
        (Except.ok { mimetype := "image/jpeg", data := "QUJD", filename := some "a.jpg" })
      = { target := .broadcast, event := .message (
          { id := some mediaPm.msgId, body := mediaPm.body, «from» := mediaPm.«from»,
            «to» := mediaPm.«to», fromMe := mediaPm.fromMe,
            media := some ({ mimetype := "image/jpeg", data := "QUJD",
                             filename := orNull (some "a.jpg") } : Media) } : Message) } := by
  have h := media_failure_degrades mediaPm
    { mimetype := "image/jpeg", data := "QUJD", filename := some "a.jpg" } "net down" rfl
  exact ⟨rfl, h.1, h.2⟩

/-- Claim C10: a platform `message_ack` event produces exactly one
broadcast `message_ack_update` whose `chatId` is the message's `to`
address (whatever `fromMe` is, so also for acks of inbound messages,
whose owning chat is the `from` address), and the ack path touches no
cached message data — the viewer registers no listener for it. -/
theorem ack_broadcast_to_address_no_cache_write
    (msg : PlatformMsg) (ack : Int) (s : HomeState) (i ch : String) (a : Int) :
    serverOnMessageAck msg ack
      = [{ target := .broadcast, event := .ackUpdate msg.msgId msg.«to» ack }] ∧
    (serverOnMessageAck msg ack).length = 1 ∧
    homeStep s (.ackUpdate i ch a) = s :=
  ⟨rfl, rfl, rfl⟩

/-! ## The bootstrap timeout guard (claim C7) -/

/-- A terminal bootstrap phase in the claim's sense: Ready
(`isReady`), AwaitingQR (a stored QR), or Failed (`hasError`). -/
def TerminalPhase (s : HomeState) : Prop :=
  s.isReady = true ∨ s.qrCode ≠ "" ∨ s.hasError = true

/-- The pending-bootstrap invariant: the timer is still set and no
terminal phase has been reached. -/
def BootPending (s : HomeState) : Prop :=
  s.timeoutActive = true ∧ s.isReady = false ∧ s.qrCode = "" ∧ s.hasError = false

/-- Events that neither clear the bootstrap timer nor reach a terminal
phase. -/
def benignBootB : SocketEvent → Bool
  | .connect => true
  | .disconnect => true
  | .sessionExists false => true
  | .logEvent _ => true
  | .chatsEvent _ => true
  | .messagesEvent _ _ => true
  | .message _ => true
  | .messageSent _ => true
  | .ackUpdate _ _ _ => true
  | _ => false

theorem benign_step_pending (s : HomeState) (e : SocketEvent)
    (hb : benignBootB e = true) (h : BootPending s) : BootPending (homeStep s e) := by
  obtain ⟨h1, h2, h3, h4⟩ := h
  cases e with
  | connect => exact ⟨h1, h2, h3, h4⟩
  | disconnect => exact ⟨h1, h2, h3, h4⟩
  | connectError emsg => simp [benignBootB] at hb
  | qr code => simp [benignBootB] at hb
  | authenticated => simp [benignBootB] at hb
  | sessionExists b =>
    cases b with
    | false => exact ⟨h1, h2, h3, h4⟩
    | true => simp [benignBootB] at hb
  | ready => simp [benignBootB] at hb
  | logEvent l => exact ⟨h1, h2, h3, h4⟩
  | chatsEvent cs => exact ⟨h1, h2, h3, h4⟩
  | messagesEvent chatId ms => exact ⟨h1, h2, h3, h4⟩
  | message m =>
    show BootPending (onMessage s m)
    unfold onMessage
    dsimp only
    split <;> exact ⟨h1, h2, h3, h4⟩
  | messageSent m =>
    show BootPending (onMessageSent s m)
    unfold onMessageSent
    split <;> exact ⟨h1, h2, h3, h4⟩
  | ackUpdate i ch a => exact ⟨h1, h2, h3, h4⟩
  | timerFire => simp [benignBootB] at hb

theorem benign_run_pending (evs : List SocketEvent) (s : HomeState)
    (hb : evs.all benignBootB = true) (h : BootPending s) :
    BootPending (homeRun s evs) := by
  induction evs generalizing s with
  | nil => exact h
  | cons e tl ih =>
    rw [List.all_cons, Bool.and_eq_true] at hb
    exact ih (homeStep s e) hb.2 (benign_step_pending s e hb.1 h)

/-- A cleared or already-fired timer makes the timer callback a no-op. -/
theorem timerFire_inactive (s : HomeState) (h : s.timeoutActive = false) :
    onTimerFire s = s := by
  unfold onTimerFire
  rw [h]
  simp

/-- While the bootstrap is still pending, the timer firing flags the
error state with the timeout stage and consumes the timer. -/
theorem timerFire_pending (s : HomeState) (h : BootPending s) :
    onTimerFire s
      = addLog { s with hasError := true,
                        loadingStage := "Connection timeout - Check server logs",
                        timeoutActive := false }
          "Loading timeout detected - server may not be responding" := by
  obtain ⟨h1, h2, h3, _⟩ := h
  unfold onTimerFire
  rw [h1]
  simp [h2, h3]

/-- Claim C7, counterexample: `connect_error` puts the session in the
Failed (terminal) phase before the deadline, but does not clear the
timer — so the forced timeout transition still fires afterwards,
overwriting the failure stage, instead of being cancelled. -/
theorem bootstrap_timeout_not_cancelled_counterexample :
    TerminalPhase (homeStep homeStart (.connectError "boom")) ∧
    (homeStep homeStart (.connectError "boom")).loadingStage = "Connection failed" ∧
    (homeStep homeStart (.connectError "boom")).timeoutActive = true ∧
    (homeStep (homeStep homeStart (.connectError "boom")) .timerFire).loadingStage
      = "Connection timeout - Check server logs" ∧
    (homeStep (homeStep homeStart (.connectError "boom")) .timerFire).hasError = true := by
  refine ⟨Or.inr (Or.inr rfl), rfl, rfl, ?_, ?_⟩ <;> rfl

/-- Claim C7, amended: if only events that neither clear the timer nor
set Ready/AwaitingQR occur before the 30-second deadline, the timer fires
and force-sets the Failed flag with the timeout stage, exactly once (a
second firing is a no-op); each of `qr`, `authenticated`,
`session_exists(true)` and `ready` clears the timer, so arriving before
the deadline it cancels the forced transition — but `connect_error`
(which also reaches the terminal Failed phase) does not cancel it, as the
counterexample shows. -/
theorem bootstrap_timeout_amended (evs : List SocketEvent) (q : String)
    (hb : evs.all benignBootB = true) :
    BootPending (homeRun homeStart evs) ∧
    (homeStep (homeRun homeStart evs) .timerFire).hasError = true ∧
    (homeStep (homeRun homeStart evs) .timerFire).loadingStage
      = "Connection timeout - Check server logs" ∧
    (homeStep (homeRun homeStart evs) .timerFire).timeoutActive = false ∧
    homeStep (homeStep (homeRun homeStart evs) .timerFire) .timerFire
      = homeStep (homeRun homeStart evs) .timerFire ∧
    homeStep (homeStep (homeRun homeStart evs) (.qr q)) .timerFire
      = homeStep (homeRun homeStart evs) (.qr q) ∧
    homeStep (homeStep (homeRun homeStart evs) .authenticated) .timerFire
      = homeStep (homeRun homeStart evs) .authenticated ∧
    homeStep (homeStep (homeRun homeStart evs) (.sessionExists true)) .timerFire
      = homeStep (homeRun homeStart evs) (.sessionExists true) ∧
    homeStep (homeStep (homeRun homeStart evs) .ready) .timerFire
      = homeStep (homeRun homeStart evs) .ready := by
  have hp : BootPending (homeRun homeStart evs) :=
    benign_run_pending evs homeStart hb ⟨rfl, rfl, rfl, rfl⟩
  have hfire := timerFire_pending _ hp
  refine ⟨hp, ?_, ?_, ?_, ?_, ?_, ?_, ?_, ?_⟩
  · show (onTimerFire _).hasError = true
    rw [hfire]
    rfl
  · show (onTimerFire _).loadingStage = _
    rw [hfire]
    rfl
  · show (onTimerFire _).timeoutActive = false
    rw [hfire]
    rfl
  · show onTimerFire (onTimerFire _) = onTimerFire _
    rw [hfire]
    exact timerFire_inactive _ rfl
  · exact timerFire_inactive _ rfl
  · exact timerFire_inactive _ rfl
  · exact timerFire_inactive _ rfl
  · exact timerFire_inactive _ rfl

/-- Witness for the amended C7: a concrete benign bootstrap trace after
which the timer fires into the Failed/timeout state. -/
theorem bootstrap_timeout_amended_witness :
    ([SocketEvent.connect, SocketEvent.sessionExists false].all benignBootB = true) ∧
    BootPending (homeRun homeStart [SocketEvent.connect, SocketEvent.sessionExists false]) ∧
    (homeStep (homeRun homeStart [SocketEvent.connect, SocketEvent.sessionExists false])
        .timerFire).hasError = true ∧
    (homeStep (homeRun homeStart [SocketEvent.connect, SocketEvent.sessionExists false])
        .timerFire).loadingStage = "Connection timeout - Check server logs" := by
  have h := bootstrap_timeout_amended
    [SocketEvent.connect, SocketEvent.sessionExists false] "QR123" (by decide)
  exact ⟨by decide, h.1, h.2.1, h.2.2.1⟩

end WaCloud
